import Mathlib

/-!
Shallow embedding of the dual-stack HTTP comparison engine of
`src/routes/api/test.ts` (the second, authoritative version of the file:
raw HTTP over port 80, `fetchViaIP` returning a failure string).

JavaScript strings are modelled as `List Char` (Unicode code points) where the
content of the string matters (bodies, HTML normalisation, similarity), and as
Lean `String` where only equality/concatenation matter (hostnames, IPs, paths,
header names and values, error messages).  JavaScript's `String.prototype.length`
counts UTF-16 code units, while `for (const ch of s)` iterates code points;
`jsStrLength` and `utf16Width` model that distinction.  JavaScript numbers are
modelled as `ℚ`: the only inexact double operation the program performs is one
division, and at every input a theorem below touches the comparison and
rounding decisions made on its result coincide with exact rational
arithmetic, the margin to the decision boundary being astronomically larger
than the relative error of a double division.

Network and platform effects (`Deno.resolveDns`, `Deno.connect`, the raw socket
exchange of `rawHttpGet`, and the WHATWG `URL` constructor) are oracles: the
embedding is parameterised by an `Env` of pure functions standing for their
observable results, and theorems quantify over all oracles.
-/

/-! ### Character and string helpers -/

/-- ASCII lower-casing, the canonicalisation relevant to the `/i` regex flag for
the ASCII-only literals appearing in the two regexes of the source (JavaScript
case-insensitive matching never identifies a non-ASCII character with an ASCII
one in non-unicode mode). -/
def lowerA (c : Char) : Char :=
  if 65 ≤ c.toNat ∧ c.toNat ≤ 90 then Char.ofNat (c.toNat + 32) else c

/-- The `["']` character class. -/
def isQuoteCh (c : Char) : Bool :=
  c == Char.ofNat 34 || c == Char.ofNat 39

/-- The JavaScript `\s` character class (WhiteSpace ∪ LineTerminator). -/
def isJsWs (c : Char) : Bool :=
  decide (c.toNat = 9 ∨ c.toNat = 10 ∨ c.toNat = 11 ∨ c.toNat = 12 ∨
    c.toNat = 13 ∨ c.toNat = 32 ∨ c.toNat = 160 ∨ c.toNat = 0x1680 ∨
    (0x2000 ≤ c.toNat ∧ c.toNat ≤ 0x200A) ∨ c.toNat = 0x2028 ∨
    c.toNat = 0x2029 ∨ c.toNat = 0x202F ∨ c.toNat = 0x205F ∨
    c.toNat = 0x3000 ∨ c.toNat = 0xFEFF)

/-- Number of UTF-16 code units used by one code point. -/
def utf16Width (c : Char) : ℕ :=
  if c.toNat < 65536 then 1 else 2

/-- JavaScript `s.length`: the UTF-16 code-unit count of the string. -/
def jsStrLength (l : List Char) : ℕ :=
  (l.map utf16Width).sum

/-- JavaScript `s.substring(0, n)`: keeps the first `n` UTF-16 code units.
(When `n` falls inside a surrogate pair JavaScript keeps a lone high surrogate;
that unit is not a code point, and no theorem below evaluates at such a cut, so
the split pair is dropped here.) -/
def jsTakeUnits (n : ℕ) : List Char → List Char
  | [] => []
  | c :: rest =>
    if utf16Width c ≤ n then c :: jsTakeUnits (n - utf16Width c) rest else []

/-- JavaScript `s.startsWith(p)`. -/
def jsStartsWith (s pre : String) : Bool :=
  pre.data.isPrefixOf s.data

/-- JavaScript `s.includes(c)` for a single character. -/
def jsIncludes (s : String) (c : Char) : Bool :=
  s.data.contains c

/-- ASCII lower-casing of a string (model of header-name normalisation). -/
def lowerStr (s : String) : String :=
  String.mk (s.data.map lowerA)

/-! ### The two regex replacements of `stripIrrelevantHtml`

The source applies two global case-insensitive regexes:

  `/<(script|style)([^>]*)\s+nonce=["'][^"']*["']([^>]*)>/gi`  → `<$1$2$3>`
  `/<input[^>]*name=["']__VIEWSTATE["'][^>]*>/gi`              → (removed)

Both are embedded as dedicated matchers with JavaScript's backtracking
semantics.  The sub-patterns `["'][^"']*["']` and `([^>]*)>` are deterministic
(the repeated class excludes the delimiter that follows, so a shorter greedy
run always leaves the cursor on a character the delimiter cannot match); the
leading `([^>]*)` groups and the `\s+` genuinely backtrack, longest first,
exactly as implemented below. -/

/-- Case-insensitive literal match: returns the characters actually matched
(original case, for `$1`) and the rest of the input. -/
def matchLitCI : List Char → List Char → Option (List Char × List Char)
  | [], s => some ([], s)
  | _ :: _, [] => none
  | l :: lit, c :: s =>
    if lowerA c == lowerA l then
      (matchLitCI lit s).map (fun p => (c :: p.1, p.2))
    else none

/-- `(script|style)` (case-insensitive; the alternatives differ at their second
character, so at most one can match at a given position). -/
def tagAlt (s : List Char) : Option (List Char × List Char) :=
  match matchLitCI "script".data s with
  | some r => some r
  | none => matchLitCI "style".data s

/-- `nonce=["'][^"']*["']([^>]*)>` at the head of `s`: returns the number of
characters consumed and the `([^>]*)` group (`$3`). -/
def nonceAfterWs (s : List Char) : Option (ℕ × List Char) :=
  match matchLitCI "nonce=".data s with
  | none => none
  | some (_, r1) =>
    match r1 with
    | [] => none
    | q :: r2 =>
      if isQuoteCh q then
        let v := r2.takeWhile (fun c => !(isQuoteCh c))
        match r2.drop v.length with
        | [] => none
        | q2 :: r4 =>
          if isQuoteCh q2 then
            let b := r4.takeWhile (fun c => !(c == Char.ofNat 62))
            match r4.drop b.length with
            | [] => none
            | gt :: _ =>
              if gt == Char.ofNat 62 then
                some (6 + 1 + v.length + 1 + b.length + 1, b)
              else none
          else none
      else none

/-- Length of the leading run of `\s` characters. -/
def wsRun (s : List Char) : ℕ :=
  (s.takeWhile isJsWs).length

/-- `\s+nonce=…` with the whitespace run tried longest first (JavaScript's
greedy `\s+` backtracking); `k` is the candidate run length. -/
def tryWsThenNonce : ℕ → List Char → Option (ℕ × List Char)
  | 0, _ => none
  | k + 1, s =>
    match nonceAfterWs (s.drop (k + 1)) with
    | some (consumed, g3) => some (k + 1 + consumed, g3)
    | none => tryWsThenNonce k s

/-- `\s+nonce=["'][^"']*["']([^>]*)>` at the head of `s`. -/
def nonceTail (s : List Char) : Option (ℕ × List Char) :=
  tryWsThenNonce (wsRun s) s

/-- The leading `([^>]*)` group (`$2`) tried longest first; `k` is the candidate
group length.  Returns consumed length from the start of `s`, `$2`, `$3`. -/
def tryNonceA : ℕ → List Char → Option (ℕ × List Char × List Char)
  | 0, s => (nonceTail s).map (fun p => (p.1, ([], p.2)))
  | k + 1, s =>
    match nonceTail (s.drop (k + 1)) with
    | some (consumed, g3) => some (k + 1 + consumed, (s.take (k + 1), g3))
    | none => tryNonceA k s

/-- One attempt of the nonce regex anchored at the head of `s`: on success,
the total number of characters matched and the replacement text `<$1$2$3>`. -/
def nonceMatchAt : List Char → Option (ℕ × List Char)
  | [] => none
  | c :: s =>
    if c == Char.ofNat 60 then
      match tagAlt s with
      | none => none
      | some (tagTxt, rest) =>
        let m := (rest.takeWhile (fun ch => !(ch == Char.ofNat 62))).length
        match tryNonceA m rest with
        | none => none
        | some (total, g2, g3) =>
          some (1 + tagTxt.length + total,
            Char.ofNat 60 :: (tagTxt ++ g2 ++ g3) ++ [Char.ofNat 62])
    else none

/-- `name=["']__VIEWSTATE["'][^>]*>` at the head of `s`: characters consumed. -/
def vsTail (s : List Char) : Option ℕ :=
  match matchLitCI "name=".data s with
  | none => none
  | some (_, r1) =>
    match r1 with
    | [] => none
    | q :: r2 =>
      if isQuoteCh q then
        match matchLitCI "__VIEWSTATE".data r2 with
        | none => none
        | some (_, r3) =>
          match r3 with
          | [] => none
          | q2 :: r4 =>
            if isQuoteCh q2 then
              let b := r4.takeWhile (fun c => !(c == Char.ofNat 62))
              match r4.drop b.length with
              | [] => none
              | gt :: _ =>
                if gt == Char.ofNat 62 then
                  some (5 + 1 + 11 + 1 + b.length + 1)
                else none
            else none
      else none

/-- The `[^>]*` group before `name=` tried longest first. -/
def tryVsA : ℕ → List Char → Option ℕ
  | 0, s => (vsTail s).map (0 + ·)
  | k + 1, s =>
    match vsTail (s.drop (k + 1)) with
    | some consumed => some (k + 1 + consumed)
    | none => tryVsA k s

/-- One attempt of the `__VIEWSTATE` regex anchored at the head of `s`. -/
def viewstateMatchAt : List Char → Option (ℕ × List Char)
  | [] => none
  | c :: s =>
    if c == Char.ofNat 60 then
      match matchLitCI "input".data s with
      | none => none
      | some (_, rest) =>
        let m := (rest.takeWhile (fun ch => !(ch == Char.ofNat 62))).length
        (tryVsA m rest).map (fun total => (1 + 5 + total, []))
    else none

/-- Global regex replacement: scan left to right, replacing each leftmost
non-overlapping match (every match here consumes at least the leading `<`).
`fuel` bounds the recursion; `jsReplaceAll` supplies `s.length`, which always
suffices because each step consumes at least one character. -/
def gReplaceF (mAt : List Char → Option (ℕ × List Char)) :
    ℕ → List Char → List Char
  | 0, s => s
  | _ + 1, [] => []
  | fuel + 1, c :: rest =>
    match mAt (c :: rest) with
    | some (len, repl) => repl ++ gReplaceF mAt fuel (rest.drop (len - 1))
    | none => c :: gReplaceF mAt fuel rest

/-- JavaScript `s.replace(re, …)` with the `g` flag. -/
def jsReplaceAll (mAt : List Char → Option (ℕ × List Char))
    (s : List Char) : List Char :=
  gReplaceF mAt s.length s

/-- `true` when the pattern matches at no position of `s`. -/
def noPatMatch (mAt : List Char → Option (ℕ × List Char))
    (s : List Char) : Bool :=
  s.tails.all (fun t => (mAt t).isNone)

/-- `stripIrrelevantHtml` (src/routes/api/test.ts:536): strip script/style
nonce attributes, then remove `__VIEWSTATE` hidden inputs. -/
def stripIrrelevantHtml (html : List Char) : List Char :=
  jsReplaceAll viewstateMatchAt (jsReplaceAll nonceMatchAt html)

/-! ### Similarity scorer -/

/-- The `matches` accumulation of `sequenceMatcherQuickRatio`
(src/routes/api/test.ts:561): for every distinct character of `b`, the minimum
of its frequencies in `a` and `b` (`freqA.get(ch) || 0` is `a.count ch`). -/
def matchesCount (a b : List Char) : ℕ :=
  (b.dedup.map (fun ch => min (a.count ch) (b.count ch))).sum

/-- `sequenceMatcherQuickRatio` (src/routes/api/test.ts:548).  The `.length`
tests and the denominator use JavaScript's UTF-16 lengths, while the frequency
maps are filled by code-point iteration. -/
def sequenceMatcherQuickRatio (a b : List Char) : ℚ :=
  if jsStrLength a = 0 ∧ jsStrLength b = 0 then 1
  else if jsStrLength a = 0 ∨ jsStrLength b = 0 then 0
  else 2 * (matchesCount a b : ℚ) / ((jsStrLength a : ℚ) + (jsStrLength b : ℚ))

/-- The reference quick-ratio of the specification, stated from its words:
"build a character-frequency multiset for each input, sum the per-character
minimum of the two counts, and return 2 × matches divided by
(len(a) + len(b)), scaled to a percentage; both inputs empty gives 100 and
exactly one input empty gives 0". -/
def specMatches (a b : List Char) : ℕ :=
  ((a ++ b).dedup.map (fun ch => min (a.count ch) (b.count ch))).sum

/-- The reference similarity score of the specification, as a percentage. -/
def specSimilarityScore (a b : List Char) : ℚ :=
  if a = [] ∧ b = [] then 100
  else if a = [] ∨ b = [] then 0
  else 100 * (2 * (specMatches a b : ℚ) / ((a.length : ℚ) + (b.length : ℚ)))

/-- JavaScript `Math.round`: round half toward +∞, i.e. `⌊x + 1/2⌋`. -/
def jsRound (x : ℚ) : ℤ :=
  ⌊x + 1 / 2⌋

def SIMHASH_MAX_RESPONSE_SIZE : ℕ := 500000

def SIMHASH_MAX_DISTANCE : ℚ := 10

/-! ### Headers -/

/-- Model of a parsed header list: (name, value) pairs in wire order,
duplicates preserved. -/
abbrev HeaderList := List (String × String)

/-- Join duplicate header values the way `Headers.prototype.get` does. -/
def joinVals : List String → String
  | [] => ""
  | [v] => v
  | v :: rest => v ++ ", " ++ joinVals rest

/-- `headers.get(name)`: case-insensitive lookup, duplicates combined with
", " in insertion order, `null` when absent. -/
def jsHeadersGet (hs : HeaderList) (name : String) : Option String :=
  match hs.filter (fun p => lowerStr p.1 == lowerStr name) with
  | [] => none
  | l => some (joinVals (l.map Prod.snd))

/-- `headers.has(name)`. -/
def jsHeadersHas (hs : HeaderList) (name : String) : Bool :=
  (jsHeadersGet hs name).isSome

/-- `headersToEntries` (src/routes/api/test.ts:569): `Headers` iteration yields
lower-cased names in sorted order with duplicate values combined. -/
def headersToEntries (hs : HeaderList) : HeaderList :=
  ((hs.map (fun p => lowerStr p.1)).dedup.mergeSort (fun a b => a ≤ b)).filterMap
    (fun n => (jsHeadersGet hs n).map (fun v => (n, v)))

/-- `COMPARE_HEADERS` (src/routes/api/test.ts:723). -/
def COMPARE_HEADERS : List String :=
  ["content-type", "server", "x-frame-options", "strict-transport-security",
   "content-security-policy", "x-content-type-options", "x-xss-protection",
   "cache-control"]

/-- One entry of `headerDiffs`. -/
structure HeaderDiff where
  header : String
  ipv4Value : Option String
  ipv6Value : Option String
deriving DecidableEq, Repr

/-- The `headerDiffs` loop of the handler (src/routes/api/test.ts:836):
for each name of `COMPARE_HEADERS`, in order, push a diff when the two
`get` results differ (absent = `null`). -/
def computeHeaderDiffs (h4 h6 : HeaderList) : List HeaderDiff :=
  COMPARE_HEADERS.foldl
    (fun acc header =>
      let v4 := jsHeadersGet h4 header
      let v6 := jsHeadersGet h6 header
      if v4 ≠ v6 then acc ++ [⟨header, v4, v6⟩] else acc)
    []

/-! ### Oracles and the raw HTTP client -/

/-- DNS record types. -/
inductive RecType where
  | A
  | AAAA
deriving DecidableEq, Repr

/-- Observable result of the WHATWG `URL` constructor. -/
structure URLRec where
  hostname : String
  pathname : String
  search : String
deriving DecidableEq, Repr

/-- Result of one raw HTTP exchange (`rawHttpGet`): parsed status, header
list, decoded body.  A thrown transport/parse error is the `Except.error`
side of the oracle. -/
structure RawResp where
  status : ℕ
  headers : HeaderList
  body : List Char
deriving DecidableEq, Repr

/-- Successful result of `fetchViaIP`. -/
structure FetchOk where
  status : ℕ
  headers : HeaderList
  body : List Char
  redirectChain : List String
deriving DecidableEq, Repr

/-- The platform oracles the engine runs against: `Deno.resolveDns`
(`none` = failure or zero records), `Deno.connect`-based port probing,
`rawHttpGet`, and the `URL` constructor (`Except.error` = the thrown
exception's message). -/
structure Env where
  dns : String → RecType → Option String
  port : String → ℕ → Bool
  http : String → String → String → Except String RawResp
  parseURL : String → Except String URLRec

/-- The record type used when a redirect re-resolves the hostname: the source
chooses by `ip.includes(":")` on the ORIGINAL `ip` argument of `fetchViaIP`. -/
def dnsTypeForIp (ip : String) : RecType :=
  if jsIncludes ip ':' then RecType.AAAA else RecType.A

/-- The `u.pathname + u.search || "/"` expression. -/
def pathOf (u : URLRec) : String :=
  if u.pathname ++ u.search = "" then "/" else u.pathname ++ u.search

/-- The redirect loop of `fetchViaIP` (src/routes/api/test.ts:678).  `fuel`
is the number of loop iterations still allowed (`maxRedirects + 1` at entry);
falling out of the loop returns the failure string "Too many redirects". -/
def fetchLoop (env : Env) (followRedirects : Bool) (ip : String) :
    ℕ → String → String → String → List String → Except String FetchOk
  | 0, _, _, _, _ => .error "Too many redirects"
  | fuel + 1, currentIp, currentHostname, currentPath, chain =>
    match env.http currentIp currentHostname currentPath with
    | .error e => .error e
    | .ok resp =>
      if followRedirects ∧ 300 ≤ resp.status ∧ resp.status < 400 ∧
          jsHeadersHas resp.headers "location" then
        let location := (jsHeadersGet resp.headers "location").getD ""
        let chain2 := chain ++ [location]
        if jsStartsWith location "http" then
          match env.parseURL location with
          | .error e => .error e
          | .ok u =>
            if u.hostname ≠ currentHostname then
              match env.dns u.hostname (dnsTypeForIp ip) with
              | none => .error ("DNS re-resolve failed for " ++ u.hostname)
              | some newIp =>
                fetchLoop env followRedirects ip fuel newIp u.hostname
                  (pathOf u) chain2
            else
              fetchLoop env followRedirects ip fuel currentIp currentHostname
                (pathOf u) chain2
        else
          fetchLoop env followRedirects ip fuel currentIp currentHostname
            location chain2
      else
        .ok ⟨resp.status, resp.headers, resp.body, chain⟩

/-- `fetchViaIP` (src/routes/api/test.ts:667): `maxRedirects` is 10 when
following redirects, otherwise 0; the loop runs at most `maxRedirects + 1`
times. -/
def fetchViaIP (env : Env) (ip hostname : String)
    (followRedirects : Bool) : Except String FetchOk :=
  fetchLoop env followRedirects ip ((if followRedirects then 10 else 0) + 1)
    ip hostname "/" []

/-- Instrumented copy of `fetchLoop` that also records, in order, every IP
address handed to the HTTP oracle (the addresses actually contacted). -/
def fetchLoopT (env : Env) (followRedirects : Bool) (ip : String) :
    ℕ → String → String → String → List String →
    Except String FetchOk × List String
  | 0, _, _, _, _ => (.error "Too many redirects", [])
  | fuel + 1, currentIp, currentHostname, currentPath, chain =>
    match env.http currentIp currentHostname currentPath with
    | .error e => (.error e, [currentIp])
    | .ok resp =>
      if followRedirects ∧ 300 ≤ resp.status ∧ resp.status < 400 ∧
          jsHeadersHas resp.headers "location" then
        let location := (jsHeadersGet resp.headers "location").getD ""
        let chain2 := chain ++ [location]
        if jsStartsWith location "http" then
          match env.parseURL location with
          | .error e => (.error e, [currentIp])
          | .ok u =>
            if u.hostname ≠ currentHostname then
              match env.dns u.hostname (dnsTypeForIp ip) with
              | none =>
                (.error ("DNS re-resolve failed for " ++ u.hostname),
                  [currentIp])
              | some newIp =>
                let r := fetchLoopT env followRedirects ip fuel newIp
                  u.hostname (pathOf u) chain2
                (r.1, currentIp :: r.2)
            else
              let r := fetchLoopT env followRedirects ip fuel currentIp
                currentHostname (pathOf u) chain2
              (r.1, currentIp :: r.2)
        else
          let r := fetchLoopT env followRedirects ip fuel currentIp
            currentHostname location chain2
          (r.1, currentIp :: r.2)
      else
        (.ok ⟨resp.status, resp.headers, resp.body, chain⟩, [currentIp])

/-- `fetchViaIP` with the contacted-address trace. -/
def fetchViaIPTrace (env : Env) (ip hostname : String)
    (followRedirects : Bool) : Except String FetchOk × List String :=
  fetchLoopT env followRedirects ip ((if followRedirects then 10 else 0) + 1)
    ip hostname "/" []

/-! ### The verdict document and the GET handler -/

structure PortResult where
  ipv4 : Bool
  ipv6 : Bool
  equal : Bool
deriving DecidableEq, Repr

structure PortCheck where
  http : PortResult
  https : PortResult
deriving DecidableEq, Repr

structure HeaderComparison where
  ipv4StatusCode : Option ℕ
  ipv6StatusCode : Option ℕ
  statusEqual : Bool
  headerDiffs : List HeaderDiff
  ipv4Headers : HeaderList
  ipv6Headers : HeaderList
deriving DecidableEq, Repr

structure ContentComparison where
  similarityPercent : Option ℚ
  pass : Bool
deriving DecidableEq, Repr

structure DebugInfo where
  ipv4Error : Option String
  ipv6Error : Option String
deriving DecidableEq, Repr

structure TestResult where
  url : String
  hostname : String
  ipv4Address : Option String
  ipv6Address : Option String
  portCheck : PortCheck
  headerComparison : HeaderComparison
  contentComparison : ContentComparison
  followedRedirectsIpv4 : List String
  followedRedirectsIpv6 : List String
  overallPass : Bool
  error : Option String
  debug : Option DebugInfo
deriving DecidableEq, Repr

/-- A handler response: HTTP 400 with an error JSON, or the verdict JSON. -/
inductive GetResponse where
  | badRequest (error : String)
  | json (r : TestResult)
deriving DecidableEq, Repr

/-- The freshly initialised `result` object of the handler
(src/routes/api/test.ts:761). -/
def baseResult (url hostname : String) (ipv4 ipv6 : Option String) :
    TestResult where
  url := url
  hostname := hostname
  ipv4Address := ipv4
  ipv6Address := ipv6
  portCheck :=
    ⟨{ ipv4 := false, ipv6 := false, equal := false },
     { ipv4 := false, ipv6 := false, equal := false }⟩
  headerComparison :=
    { ipv4StatusCode := none, ipv6StatusCode := none, statusEqual := false,
      headerDiffs := [], ipv4Headers := [], ipv6Headers := [] }
  contentComparison := { similarityPercent := none, pass := false }
  followedRedirectsIpv4 := []
  followedRedirectsIpv6 := []
  overallPass := false
  error := none
  debug := none

def mkPortResult (a b : Bool) : PortResult :=
  { ipv4 := a, ipv6 := b, equal := a == b }

/-- Projection of a handler response onto the verdict document (observer used
by counterexamples; a 400 response is mapped to an empty dummy verdict). -/
def verdictOf : GetResponse → TestResult
  | .json r => r
  | .badRequest _ => baseResult "" "" none none

/-- The success branch of the handler (src/routes/api/test.ts:829): both
fetches produced a response; compare statuses and headers, normalise and cap
the bodies, score them, and aggregate `overallPass`. -/
def scoredResult (url hostname a4 a6 : String) (pc : PortCheck)
    (resp4 resp6 : FetchOk) : TestResult :=
  let statusEqual := resp4.status == resp6.status
  let html4 := stripIrrelevantHtml (jsTakeUnits SIMHASH_MAX_RESPONSE_SIZE resp4.body)
  let html6 := stripIrrelevantHtml (jsTakeUnits SIMHASH_MAX_RESPONSE_SIZE resp6.body)
  let ratio := sequenceMatcherQuickRatio html4 html6
  let distance : ℚ := 100 - ratio * 100
  let similarityPercent : ℚ := (jsRound (ratio * 1000) : ℚ) / 10
  let pass : Bool := decide (distance ≤ SIMHASH_MAX_DISTANCE)
  { url := url
    hostname := hostname
    ipv4Address := some a4
    ipv6Address := some a6
    portCheck := pc
    headerComparison :=
      { ipv4StatusCode := some resp4.status, ipv6StatusCode := some resp6.status,
        statusEqual := statusEqual,
        headerDiffs := computeHeaderDiffs resp4.headers resp6.headers,
        ipv4Headers := headersToEntries resp4.headers,
        ipv6Headers := headersToEntries resp6.headers }
    contentComparison := { similarityPercent := some similarityPercent, pass := pass }
    followedRedirectsIpv4 := resp4.redirectChain
    followedRedirectsIpv6 := resp6.redirectChain
    overallPass := pc.http.equal && pc.https.equal && statusEqual && pass
    error := none
    debug := none }

/-- The failure branch of the handler (src/routes/api/test.ts:868): at least
one fetch failed; keep the defaults, report which side failed, and expose the
failure strings in `debug`. -/
def fetchErrorResult (url hostname a4 a6 : String) (pc : PortCheck)
    (r4 r6 : Except String FetchOk) : TestResult :=
  let ok4 := match r4 with | .ok _ => true | .error _ => false
  let ok6 := match r6 with | .ok _ => true | .error _ => false
  let err4 := match r4 with | .ok _ => none | .error e => some e
  let err6 := match r6 with | .ok _ => none | .error e => some e
  { baseResult url hostname (some a4) (some a6) with
    portCheck := pc
    error := some ("Could not fetch content: IPv4 " ++
      (if ok4 then "OK" else "failed") ++ ", IPv6 " ++
      (if ok6 then "OK" else "failed"))
    debug := some { ipv4Error := err4, ipv6Error := err6 } }

/-- Port probing and the two concurrent fetches (src/routes/api/test.ts:805). -/
def proceedStage (env : Env) (url : String) (followRedirects : Bool)
    (hostname a4 a6 : String) : TestResult :=
  let pc : PortCheck :=
    { http := mkPortResult (env.port a4 80) (env.port a6 80),
      https := mkPortResult (env.port a4 443) (env.port a6 443) }
  match fetchViaIP env a4 hostname followRedirects,
        fetchViaIP env a6 hostname followRedirects with
  | .ok resp4, .ok resp6 => scoredResult url hostname a4 a6 pc resp4 resp6
  | r4, r6 => fetchErrorResult url hostname a4 a6 pc r4 r6

/-- The DNS stage of the handler (src/routes/api/test.ts:756): resolve both
families, return a terminal error verdict when one or both are absent. -/
def getAfterParse (env : Env) (url : String) (followRedirects : Bool)
    (hostname : String) : GetResponse :=
  match env.dns hostname RecType.A, env.dns hostname RecType.AAAA with
  | none, none =>
    .json { baseResult url hostname none none with
      error := some "Could not resolve any DNS records for this hostname" }
  | some a4, none =>
    .json { baseResult url hostname (some a4) none with
      error := some "No AAAA (IPv6) record found — IPv6 not available" }
  | none, some a6 =>
    .json { baseResult url hostname none (some a6) with
      error := some "No A (IPv4) record found — IPv4 not available" }
  | some a4, some a6 =>
    .json (proceedStage env url followRedirects hostname a4 a6)

/-- The GET handler (src/routes/api/test.ts:735): validate the `url` query
parameter (`!url` also rejects the empty string), apply the default scheme
when the parameter does not start with "http", parse, then run the engine.
`followRedirects` is true exactly when the parameter equals "true". -/
def GET (env : Env) (urlParam : Option String) (frParam : Option String) :
    GetResponse :=
  match urlParam with
  | none => .badRequest "url parameter required"
  | some url =>
    if url = "" then .badRequest "url parameter required"
    else
      match env.parseURL
          (if jsStartsWith url "http" then url else "https://" ++ url) with
      | .error _ => .badRequest "Invalid URL"
      | .ok parsed =>
        getAfterParse env url (frParam == some "true") parsed.hostname

/-! ### Unfolding helpers for the handler -/

theorem GET_some_ok (env : Env) (url : String) (frParam : Option String)
    (parsed : URLRec) (hurl : url ≠ "")
    (hp : env.parseURL
      (if jsStartsWith url "http" then url else "https://" ++ url) = .ok parsed) :
    GET env (some url) frParam =
      getAfterParse env url (frParam == some "true") parsed.hostname := by
  simp only [GET, if_neg hurl, hp]

theorem getAfterParse_both (env : Env) (url : String) (fr : Bool)
    (hostname a4 a6 : String)
    (h4 : env.dns hostname RecType.A = some a4)
    (h6 : env.dns hostname RecType.AAAA = some a6) :
    getAfterParse env url fr hostname =
      .json (proceedStage env url fr hostname a4 a6) := by
  simp only [getAfterParse, h4, h6]

theorem proceedStage_ok (env : Env) (url : String) (fr : Bool)
    (hostname a4 a6 : String) (resp4 resp6 : FetchOk)
    (hr4 : fetchViaIP env a4 hostname fr = .ok resp4)
    (hr6 : fetchViaIP env a6 hostname fr = .ok resp6) :
    proceedStage env url fr hostname a4 a6 =
      scoredResult url hostname a4 a6
        { http := mkPortResult (env.port a4 80) (env.port a6 80),
          https := mkPortResult (env.port a4 443) (env.port a6 443) }
        resp4 resp6 := by
  simp only [proceedStage, hr4, hr6]

theorem proceedStage_portCheck (env : Env) (url : String) (fr : Bool)
    (hostname a4 a6 : String) :
    (proceedStage env url fr hostname a4 a6).portCheck =
      { http := mkPortResult (env.port a4 80) (env.port a6 80),
        https := mkPortResult (env.port a4 443) (env.port a6 443) } := by
  unfold proceedStage
  cases fetchViaIP env a4 hostname fr <;>
    cases fetchViaIP env a6 hostname fr <;>
    rfl

theorem getAfterParse_fields (env : Env) (url : String) (fr : Bool)
    (hostname : String) :
    ∃ r, getAfterParse env url fr hostname = .json r ∧
      r.url = url ∧ r.hostname = hostname := by
  unfold getAfterParse
  cases env.dns hostname RecType.A <;> cases env.dns hostname RecType.AAAA
  case none.none => exact ⟨_, rfl, rfl, rfl⟩
  case none.some a6 => exact ⟨_, rfl, rfl, rfl⟩
  case some.none a4 => exact ⟨_, rfl, rfl, rfl⟩
  case some.some a4 a6 =>
    refine ⟨_, rfl, ?_, ?_⟩ <;>
      · unfold proceedStage
        cases fetchViaIP env a4 hostname fr <;>
          cases fetchViaIP env a6 hostname fr <;> rfl

/-! ### C5, C6, C8, C9 -/

/-- C5: in every verdict produced when both fetches succeed, `overallPass` is
exactly the conjunction of the two port equalities, status equality and the
content pass; the right-hand side does not mention `headerDiffs`, so header
differences alone never fail the verdict, and `statusEqual = false` forces
`overallPass = false` whatever the similarity score. -/
theorem overallPass_is_conjunction (env : Env) (url : String)
    (frParam : Option String) (parsed : URLRec) (a4 a6 : String)
    (resp4 resp6 : FetchOk) (hurl : url ≠ "")
    (hp : env.parseURL
      (if jsStartsWith url "http" then url else "https://" ++ url) = .ok parsed)
    (h4 : env.dns parsed.hostname RecType.A = some a4)
    (h6 : env.dns parsed.hostname RecType.AAAA = some a6)
    (hr4 : fetchViaIP env a4 parsed.hostname (frParam == some "true") = .ok resp4)
    (hr6 : fetchViaIP env a6 parsed.hostname (frParam == some "true") = .ok resp6) :
    ∃ r, GET env (some url) frParam = .json r ∧
      r.overallPass = (r.portCheck.http.equal && r.portCheck.https.equal &&
        r.headerComparison.statusEqual && r.contentComparison.pass) ∧
      (r.headerComparison.statusEqual = false → r.overallPass = false) := by
  rw [GET_some_ok env url frParam parsed hurl hp,
    getAfterParse_both env url _ parsed.hostname a4 a6 h4 h6,
    proceedStage_ok env url _ parsed.hostname a4 a6 resp4 resp6 hr4 hr6]
  refine ⟨_, rfl, rfl, fun h => ?_⟩
  simp only [scoredResult] at h ⊢
  rw [h]
  simp

/-- Oracle set for the all-success witnesses: one hostname, both records
present, all ports open, identical 200 responses on both families. -/
def wEnvOk : Env where
  dns := fun h t =>
    if h = "h.test" then
      match t with
      | RecType.A => some "192.0.2.1"
      | RecType.AAAA => some "2001:db8::1"
    else none
  port := fun _ _ => true
  http := fun _ _ _ =>
    .ok { status := 200, headers := [("server", "x")], body := "ok".data }
  parseURL := fun s =>
    if s = "https://h.test" then .ok ⟨"h.test", "/", ""⟩
    else .error "invalid URL"

theorem overallPass_is_conjunction_witness :
    ∃ r, GET wEnvOk (some "h.test") none = .json r ∧
      r.overallPass = (r.portCheck.http.equal && r.portCheck.https.equal &&
        r.headerComparison.statusEqual && r.contentComparison.pass) ∧
      (r.headerComparison.statusEqual = false → r.overallPass = false) :=
  overallPass_is_conjunction wEnvOk "h.test" none ⟨"h.test", "/", ""⟩
    "192.0.2.1" "2001:db8::1"
    { status := 200, headers := [("server", "x")], body := "ok".data,
      redirectChain := [] }
    { status := 200, headers := [("server", "x")], body := "ok".data,
      redirectChain := [] }
    (by decide) rfl rfl rfl rfl rfl

/-- C6: when the hostname resolves in exactly one family the handler returns
the fresh verdict (every port/header/content field still at its initial
default) with only the error string naming the absent family filled in; the
conclusion holds for every port/HTTP oracle, so no probe or fetch can have
influenced it. -/
theorem one_family_missing_skips_stages :
    (∀ (env : Env) (url : String) (frParam : Option String) (parsed : URLRec)
      (a4 : String), url ≠ "" →
      env.parseURL
        (if jsStartsWith url "http" then url else "https://" ++ url) = .ok parsed →
      env.dns parsed.hostname RecType.A = some a4 →
      env.dns parsed.hostname RecType.AAAA = none →
      GET env (some url) frParam =
        .json { baseResult url parsed.hostname (some a4) none with
          error := some "No AAAA (IPv6) record found — IPv6 not available" })
    ∧
    (∀ (env : Env) (url : String) (frParam : Option String) (parsed : URLRec)
      (a6 : String), url ≠ "" →
      env.parseURL
        (if jsStartsWith url "http" then url else "https://" ++ url) = .ok parsed →
      env.dns parsed.hostname RecType.A = none →
      env.dns parsed.hostname RecType.AAAA = some a6 →
      GET env (some url) frParam =
        .json { baseResult url parsed.hostname none (some a6) with
          error := some "No A (IPv4) record found — IPv4 not available" }) := by
  constructor
  · intro env url frParam parsed a4 hurl hp h4 h6
    rw [GET_some_ok env url frParam parsed hurl hp]
    simp only [getAfterParse, h4, h6]
  · intro env url frParam parsed a6 hurl hp h4 h6
    rw [GET_some_ok env url frParam parsed hurl hp]
    simp only [getAfterParse, h4, h6]

/-- Oracle set resolving only an A record. -/
def wEnvNoV6 : Env :=
  { wEnvOk with dns := fun h t =>
      if h = "h.test" ∧ t = RecType.A then some "192.0.2.1" else none }

/-- Oracle set resolving only an AAAA record. -/
def wEnvNoV4 : Env :=
  { wEnvOk with dns := fun h t =>
      if h = "h.test" ∧ t = RecType.AAAA then some "2001:db8::1" else none }

theorem one_family_missing_skips_stages_witness :
    (GET wEnvNoV6 (some "h.test") none =
      .json { baseResult "h.test" "h.test" (some "192.0.2.1") none with
        error := some "No AAAA (IPv6) record found — IPv6 not available" })
    ∧
    (GET wEnvNoV4 (some "h.test") none =
      .json { baseResult "h.test" "h.test" none (some "2001:db8::1") with
        error := some "No A (IPv4) record found — IPv4 not available" }) :=
  ⟨one_family_missing_skips_stages.1 wEnvNoV6 "h.test" none ⟨"h.test", "/", ""⟩
      "192.0.2.1" (by decide) rfl rfl rfl,
    one_family_missing_skips_stages.2 wEnvNoV4 "h.test" none ⟨"h.test", "/", ""⟩
      "2001:db8::1" (by decide) rfl rfl rfl⟩

/-- C8: whenever both families resolved (so the probes run), each protocol's
reported `equal` is exactly the boolean equality of the two reported
reachability bits, which are in turn exactly the probe oracle's answers. -/
theorem portCheck_equal_is_eq (env : Env) (url : String)
    (frParam : Option String) (parsed : URLRec) (a4 a6 : String)
    (hurl : url ≠ "")
    (hp : env.parseURL
      (if jsStartsWith url "http" then url else "https://" ++ url) = .ok parsed)
    (h4 : env.dns parsed.hostname RecType.A = some a4)
    (h6 : env.dns parsed.hostname RecType.AAAA = some a6) :
    ∃ r, GET env (some url) frParam = .json r ∧
      r.portCheck.http.ipv4 = env.port a4 80 ∧
      r.portCheck.http.ipv6 = env.port a6 80 ∧
      r.portCheck.https.ipv4 = env.port a4 443 ∧
      r.portCheck.https.ipv6 = env.port a6 443 ∧
      r.portCheck.http.equal = (r.portCheck.http.ipv4 == r.portCheck.http.ipv6) ∧
      r.portCheck.https.equal = (r.portCheck.https.ipv4 == r.portCheck.https.ipv6) := by
  rw [GET_some_ok env url frParam parsed hurl hp,
    getAfterParse_both env url _ parsed.hostname a4 a6 h4 h6]
  have hpc := proceedStage_portCheck env url (frParam == some "true")
    parsed.hostname a4 a6
  exact ⟨_, rfl, by rw [hpc]; rfl, by rw [hpc]; rfl, by rw [hpc]; rfl,
    by rw [hpc]; rfl, by rw [hpc]; rfl, by rw [hpc]; rfl⟩

theorem portCheck_equal_is_eq_witness :
    ∃ r, GET wEnvOk (some "h.test") none = .json r ∧
      r.portCheck.http.ipv4 = wEnvOk.port "192.0.2.1" 80 ∧
      r.portCheck.http.ipv6 = wEnvOk.port "2001:db8::1" 80 ∧
      r.portCheck.https.ipv4 = wEnvOk.port "192.0.2.1" 443 ∧
      r.portCheck.https.ipv6 = wEnvOk.port "2001:db8::1" 443 ∧
      r.portCheck.http.equal = (r.portCheck.http.ipv4 == r.portCheck.http.ipv6) ∧
      r.portCheck.https.equal = (r.portCheck.https.ipv4 == r.portCheck.https.ipv6) :=
  portCheck_equal_is_eq wEnvOk "h.test" none ⟨"h.test", "/", ""⟩
    "192.0.2.1" "2001:db8::1" (by decide) rfl rfl rfl

/-- C9: a missing (or empty) `url` parameter and an unparseable URL are both
rejected with a 400 error response whatever the network oracles would answer
(no stage ever consults them), while a parseable value — to which the default
"https://" scheme is prefixed exactly when the parameter does not start with
"http" — always produces a verdict document carrying that parameter and the
parsed hostname. -/
theorem url_validation :
    (∀ (env : Env) (frParam : Option String),
      GET env none frParam = .badRequest "url parameter required")
    ∧
    (∀ (env : Env) (frParam : Option String),
      GET env (some "") frParam = .badRequest "url parameter required")
    ∧
    (∀ (env : Env) (url : String) (frParam : Option String) (e : String),
      url ≠ "" →
      env.parseURL
        (if jsStartsWith url "http" then url else "https://" ++ url) = .error e →
      GET env (some url) frParam = .badRequest "Invalid URL")
    ∧
    (∀ (env : Env) (url : String) (frParam : Option String) (parsed : URLRec),
      url ≠ "" →
      env.parseURL
        (if jsStartsWith url "http" then url else "https://" ++ url) = .ok parsed →
      ∃ r, GET env (some url) frParam = .json r ∧
        r.url = url ∧ r.hostname = parsed.hostname) := by
  refine ⟨fun env frParam => rfl, fun env frParam => rfl, ?_, ?_⟩
  · intro env url frParam e hurl herr
    simp only [GET, if_neg hurl, herr]
  · intro env url frParam parsed hurl hp
    rw [GET_some_ok env url frParam parsed hurl hp]
    exact getAfterParse_fields env url _ parsed.hostname

theorem url_validation_witness :
    (GET wEnvOk none none = .badRequest "url parameter required")
    ∧
    (GET wEnvOk (some "nope url") none = .badRequest "Invalid URL")
    ∧
    (∃ r, GET wEnvOk (some "h.test") none = .json r ∧
      r.url = "h.test" ∧ r.hostname = "h.test") :=
  ⟨url_validation.1 wEnvOk none,
    url_validation.2.2.1 wEnvOk "nope url" none "invalid URL" (by decide) rfl,
    url_validation.2.2.2 wEnvOk "h.test" none ⟨"h.test", "/", ""⟩
      (by decide) rfl⟩

/-! ### C7 -/

/-- The condition/result function of one `headerDiffs` loop step. -/
def headerDiffAt (h4 h6 : HeaderList) (header : String) : Option HeaderDiff :=
  let v4 := jsHeadersGet h4 header
  let v6 := jsHeadersGet h6 header
  if v4 ≠ v6 then some ⟨header, v4, v6⟩ else none

theorem computeHeaderDiffs_eq_filterMap (h4 h6 : HeaderList) :
    computeHeaderDiffs h4 h6 = COMPARE_HEADERS.filterMap (headerDiffAt h4 h6) := by
  have aux : ∀ (l : List String) (acc : List HeaderDiff),
      l.foldl
        (fun acc header =>
          let v4 := jsHeadersGet h4 header
          let v6 := jsHeadersGet h6 header
          if v4 ≠ v6 then acc ++ [⟨header, v4, v6⟩] else acc)
        acc = acc ++ l.filterMap (headerDiffAt h4 h6) := by
    intro l
    induction l with
    | nil => intro acc; simp
    | cons x xs ih =>
      intro acc
      simp only [List.foldl_cons, List.filterMap_cons]
      by_cases h : jsHeadersGet h4 x ≠ jsHeadersGet h6 x
      · simp only [headerDiffAt, if_pos h, ih]
        simp
      · simp only [headerDiffAt, if_neg h, ih]
  exact (aux COMPARE_HEADERS []).trans (by simp)

/-- C7: every reported diff carries a name from the fixed 8-name comparison
set together with the two looked-up values (absent = `null`), which differ;
and a name of the set is reported exactly when its two values differ.  Names
outside `COMPARE_HEADERS` are consequently never reported, however much their
values differ. -/
theorem headerDiffs_membership (h4 h6 : HeaderList) :
    (∀ d ∈ computeHeaderDiffs h4 h6,
      d.header ∈ COMPARE_HEADERS ∧
      d.ipv4Value = jsHeadersGet h4 d.header ∧
      d.ipv6Value = jsHeadersGet h6 d.header ∧
      d.ipv4Value ≠ d.ipv6Value)
    ∧
    (∀ n ∈ COMPARE_HEADERS,
      (∃ d ∈ computeHeaderDiffs h4 h6, d.header = n) ↔
        jsHeadersGet h4 n ≠ jsHeadersGet h6 n) := by
  constructor
  · intro d hd
    rw [computeHeaderDiffs_eq_filterMap, List.mem_filterMap] at hd
    obtain ⟨n, hn, hg⟩ := hd
    by_cases h : jsHeadersGet h4 n ≠ jsHeadersGet h6 n
    · simp only [headerDiffAt, if_pos h, Option.some.injEq] at hg
      subst hg
      exact ⟨hn, rfl, rfl, h⟩
    · simp [headerDiffAt, if_neg h] at hg
  · intro n hn
    constructor
    · rintro ⟨d, hd, rfl⟩
      rw [computeHeaderDiffs_eq_filterMap, List.mem_filterMap] at hd
      obtain ⟨m, _, hg⟩ := hd
      by_cases h : jsHeadersGet h4 m ≠ jsHeadersGet h6 m
      · simp only [headerDiffAt, if_pos h, Option.some.injEq] at hg
        subst hg
        exact h
      · simp [headerDiffAt, if_neg h] at hg
    · intro h
      refine ⟨⟨n, jsHeadersGet h4 n, jsHeadersGet h6 n⟩, ?_, rfl⟩
      rw [computeHeaderDiffs_eq_filterMap, List.mem_filterMap]
      exact ⟨n, hn, by simp only [headerDiffAt, if_pos h]⟩

/-- Concrete header lists for the C7 witness: `server` differs inside the
comparison set; `x-powered-by` differs outside it. -/
def wHdrs4 : HeaderList := [("Server", "nginx"), ("x-powered-by", "a")]

def wHdrs6 : HeaderList := [("x-powered-by", "b")]

theorem headerDiffs_membership_witness :
    ((HeaderDiff.mk "server" (some "nginx") none).header ∈ COMPARE_HEADERS ∧
      (HeaderDiff.mk "server" (some "nginx") none).ipv4Value =
        jsHeadersGet wHdrs4 "server" ∧
      (HeaderDiff.mk "server" (some "nginx") none).ipv6Value =
        jsHeadersGet wHdrs6 "server" ∧
      (HeaderDiff.mk "server" (some "nginx") none).ipv4Value ≠
        (HeaderDiff.mk "server" (some "nginx") none).ipv6Value)
    ∧
    ((∃ d ∈ computeHeaderDiffs wHdrs4 wHdrs6, d.header = "server") ↔
      jsHeadersGet wHdrs4 "server" ≠ jsHeadersGet wHdrs6 "server") :=
  ⟨(headerDiffs_membership wHdrs4 wHdrs6).1 ⟨"server", some "nginx", none⟩
      (by decide),
    (headerDiffs_membership wHdrs4 wHdrs6).2 "server" (by decide)⟩

/-! ### C1, C2: the redirect loop -/

theorem fetchLoopT_len (env : Env) (fr : Bool) (ip : String) :
    ∀ (fuel : ℕ) (curIp curHost curPath : String) (chain : List String),
      (fetchLoopT env fr ip fuel curIp curHost curPath chain).2.length ≤ fuel := by
  intro fuel
  induction fuel with
  | zero => intro curIp curHost curPath chain; simp [fetchLoopT]
  | succ n ih =>
    intro curIp curHost curPath chain
    unfold fetchLoopT
    split
    · simp
    · split
      · dsimp only
        split
        · split
          · simp
          · split
            · split
              · simp
              · simpa using Nat.succ_le_succ (ih _ _ _ _)
            · simpa using Nat.succ_le_succ (ih _ _ _ _)
        · simpa using Nat.succ_le_succ (ih _ _ _ _)
      · simp

theorem fetchLoopT_fst (env : Env) (fr : Bool) (ip : String) :
    ∀ (fuel : ℕ) (curIp curHost curPath : String) (chain : List String),
      (fetchLoopT env fr ip fuel curIp curHost curPath chain).1 =
        fetchLoop env fr ip fuel curIp curHost curPath chain := by
  intro fuel
  induction fuel with
  | zero => intro curIp curHost curPath chain; rfl
  | succ n ih =>
    intro curIp curHost curPath chain
    unfold fetchLoopT fetchLoop
    split
    · rfl
    · split
      · dsimp only
        split
        · split
          · rfl
          · split
            · split
              · rfl
              · simpa using ih _ _ _ _
            · simpa using ih _ _ _ _
        · simpa using ih _ _ _ _
      · rfl

/-- The invariant of C1: an address is the original one or was obtained from
the resolver oracle at the original address's record type. -/
def ReachOk (env : Env) (ip : String) (a : String) : Prop :=
  a = ip ∨ ∃ h, env.dns h (dnsTypeForIp ip) = some a

theorem fetchLoopT_trace_reach (env : Env) (fr : Bool) (ip : String) :
    ∀ (fuel : ℕ) (curIp curHost curPath : String) (chain : List String),
      ReachOk env ip curIp →
      ∀ a ∈ (fetchLoopT env fr ip fuel curIp curHost curPath chain).2,
        ReachOk env ip a := by
  intro fuel
  induction fuel with
  | zero => intro curIp curHost curPath chain _ a ha; simp [fetchLoopT] at ha
  | succ n ih =>
    intro curIp curHost curPath chain hcur a ha
    unfold fetchLoopT at ha
    revert ha
    split
    · intro ha
      simp at ha
      exact ha ▸ hcur
    · split
      · dsimp only
        split
        · split
          · intro ha
            simp at ha
            exact ha ▸ hcur
          · split
            · split
              · intro ha
                simp at ha
                exact ha ▸ hcur
              · intro ha
                rcases List.mem_cons.1 ha with h | h
                · exact h ▸ hcur
                · exact ih _ _ _ _ (Or.inr ⟨_, by assumption⟩) a h
            · intro ha
              rcases List.mem_cons.1 ha with h | h
              · exact h ▸ hcur
              · exact ih _ _ _ _ hcur a h
        · intro ha
          rcases List.mem_cons.1 ha with h | h
          · exact h ▸ hcur
          · exact ih _ _ _ _ hcur a h
      · intro ha
        simp at ha
        exact ha ▸ hcur

theorem fetchLoop_all_redirect (env : Env) (ip : String)
    (hred : ∀ i h p, ∃ resp, env.http i h p = .ok resp ∧
      300 ≤ resp.status ∧ resp.status < 400 ∧
      jsHeadersHas resp.headers "location" = true ∧
      jsStartsWith ((jsHeadersGet resp.headers "location").getD "") "http" = false) :
    ∀ (fuel : ℕ) (curIp curHost curPath : String) (chain : List String),
      fetchLoop env true ip fuel curIp curHost curPath chain =
        .error "Too many redirects" := by
  intro fuel
  induction fuel with
  | zero => intro curIp curHost curPath chain; rfl
  | succ n ih =>
    intro curIp curHost curPath chain
    obtain ⟨resp, hh, h1, h2, h3, h4⟩ := hred curIp curHost curPath
    unfold fetchLoop
    rw [hh]
    dsimp only
    rw [if_pos ⟨rfl, h1, h2, h3⟩]
    rw [if_neg (by rw [h4]; simp)]
    exact ih _ _ _ _

/-- C1: (a) the instrumented loop computes the same result as `fetchViaIP`;
(b) every address handed to the HTTP oracle during a fetch is either the
original address or the answer of a DNS lookup made at the original address's
record type ("AAAA" when the original IP contains a colon, "A" otherwise) —
the contacted address never crosses address families; (c) when a redirect
response carries an absolute location whose host differs from the current
hostname and re-resolution at that record type returns nothing, the whole
fetch terminates with the failure reason naming the host. -/
theorem fetchViaIP_family_pinned :
    (∀ (env : Env) (ip hostname : String) (fr : Bool),
      (fetchViaIPTrace env ip hostname fr).1 = fetchViaIP env ip hostname fr)
    ∧
    (∀ (env : Env) (ip hostname : String) (fr : Bool),
      ∀ a ∈ (fetchViaIPTrace env ip hostname fr).2,
        a = ip ∨ ∃ h, env.dns h (dnsTypeForIp ip) = some a)
    ∧
    (∀ (env : Env) (ip : String) (fuel : ℕ) (curIp curHost curPath : String)
      (chain : List String) (resp : RawResp) (u : URLRec),
      env.http curIp curHost curPath = .ok resp →
      300 ≤ resp.status → resp.status < 400 →
      jsHeadersHas resp.headers "location" = true →
      jsStartsWith ((jsHeadersGet resp.headers "location").getD "") "http" = true →
      env.parseURL ((jsHeadersGet resp.headers "location").getD "") = .ok u →
      u.hostname ≠ curHost →
      env.dns u.hostname (dnsTypeForIp ip) = none →
      fetchLoop env true ip (fuel + 1) curIp curHost curPath chain =
        .error ("DNS re-resolve failed for " ++ u.hostname)) := by
  refine ⟨fun env ip hostname fr => fetchLoopT_fst env fr ip _ ip hostname "/" [],
    fun env ip hostname fr =>
      fetchLoopT_trace_reach env fr ip _ ip hostname "/" [] (Or.inl rfl),
    ?_⟩
  intro env ip fuel curIp curHost curPath chain resp u hh h1 h2 h3 h4 hu hne hdns
  unfold fetchLoop
  rw [hh]
  dsimp only
  rw [if_pos ⟨rfl, h1, h2, h3⟩]
  rw [if_pos h4, hu]
  dsimp only
  rw [if_pos hne, hdns]

/-- Oracle set for the C1 witness: the original host redirects to
`other.example`, whose lookup fails. -/
def wEnvRedir : Env where
  dns := fun _ _ => none
  port := fun _ _ => false
  http := fun _ h _ =>
    if h = "orig.example" then
      .ok { status := 301, headers := [("location", "http://other.example/")],
            body := [] }
    else .ok { status := 200, headers := [], body := [] }
  parseURL := fun s =>
    if s = "http://other.example/" then .ok ⟨"other.example", "/", ""⟩
    else .error "invalid URL"

theorem fetchViaIP_family_pinned_witness :
    ((fetchViaIPTrace wEnvRedir "192.0.2.7" "orig.example" true).1 =
      fetchViaIP wEnvRedir "192.0.2.7" "orig.example" true)
    ∧
    ("192.0.2.7" = "192.0.2.7" ∨
      ∃ h, wEnvRedir.dns h (dnsTypeForIp "192.0.2.7") = some "192.0.2.7")
    ∧
    (fetchLoop wEnvRedir true "192.0.2.7" (10 + 1) "192.0.2.7" "orig.example"
        "/" [] = .error ("DNS re-resolve failed for " ++ "other.example")) :=
  ⟨fetchViaIP_family_pinned.1 wEnvRedir "192.0.2.7" "orig.example" true,
    fetchViaIP_family_pinned.2.1 wEnvRedir "192.0.2.7" "orig.example" true
      "192.0.2.7" (by decide),
    fetchViaIP_family_pinned.2.2 wEnvRedir "192.0.2.7" 10 "192.0.2.7"
      "orig.example" "/" []
      { status := 301, headers := [("location", "http://other.example/")],
        body := [] }
      ⟨"other.example", "/", ""⟩
      (by rfl) (by decide) (by decide) (by decide) (by decide) (by rfl)
      (by decide) (by rfl)⟩

/-- C2: (a) for every oracle and input, at most 11 requests are issued per
fetch — i.e. at most 10 redirects are ever followed — so the loop cannot
hang; (b) when every response is an (unresolved, relative-location) redirect,
the budget is exhausted and `fetchViaIP` returns the failure reason
"Too many redirects". -/
theorem fetchViaIP_redirect_budget :
    (∀ (env : Env) (ip hostname : String) (fr : Bool),
      (fetchViaIPTrace env ip hostname fr).2.length ≤ 11)
    ∧
    (∀ (env : Env) (ip hostname : String),
      (∀ i h p, ∃ resp, env.http i h p = .ok resp ∧
        300 ≤ resp.status ∧ resp.status < 400 ∧
        jsHeadersHas resp.headers "location" = true ∧
        jsStartsWith ((jsHeadersGet resp.headers "location").getD "") "http" = false) →
      fetchViaIP env ip hostname true = .error "Too many redirects") := by
  constructor
  · intro env ip hostname fr
    refine le_trans (fetchLoopT_len env fr ip _ ip hostname "/" []) ?_
    cases fr <;> simp
  · intro env ip hostname hred
    exact fetchLoop_all_redirect env ip hred _ ip hostname "/" []

/-- Oracle set for the C2 witness: every response is a relative redirect. -/
def wEnvLoop : Env where
  dns := fun _ _ => none
  port := fun _ _ => false
  http := fun _ _ _ =>
    .ok { status := 302, headers := [("location", "/n")], body := [] }
  parseURL := fun _ => .error "invalid URL"

theorem fetchViaIP_redirect_budget_witness :
    ((fetchViaIPTrace wEnvLoop "192.0.2.8" "loop.example" true).2.length ≤ 11)
    ∧
    (fetchViaIP wEnvLoop "192.0.2.8" "loop.example" true =
      .error "Too many redirects") :=
  ⟨fetchViaIP_redirect_budget.1 wEnvLoop "192.0.2.8" "loop.example" true,
    fetchViaIP_redirect_budget.2 wEnvLoop "192.0.2.8" "loop.example"
      (fun i h p =>
        ⟨{ status := 302, headers := [("location", "/n")], body := [] },
          rfl, by decide, by decide, by decide, by decide⟩)⟩

/-! ### C10: normalisation idempotence -/

theorem gReplaceF_no_match (mAt : List Char → Option (ℕ × List Char)) :
    ∀ (fuel : ℕ) (s : List Char), noPatMatch mAt s = true →
      gReplaceF mAt fuel s = s := by
  intro fuel
  induction fuel with
  | zero => intro s _; rfl
  | succ n ih =>
    intro s hs
    cases s with
    | nil => rfl
    | cons c rest =>
      rw [noPatMatch, List.tails_cons, List.all_cons, Bool.and_eq_true] at hs
      obtain ⟨h1, h2⟩ := hs
      rw [Option.isNone_iff_eq_none] at h1
      simp only [gReplaceF, h1]
      rw [ih rest h2]

theorem jsReplaceAll_no_match (mAt : List Char → Option (ℕ × List Char))
    (s : List Char) (hs : noPatMatch mAt s = true) :
    jsReplaceAll mAt s = s :=
  gReplaceF_no_match mAt s.length s hs

/-- C10 (amended): `stripIrrelevantHtml` is idempotent on every input whose
normalised form contains no residual match of either pattern.  (In general a
single pass can leave a residual match — see the counterexample — because the
greedy `([^>]*)` group of the nonce regex can swallow an earlier `nonce`
attribute of the same tag, and removing a `__VIEWSTATE` input can splice
surrounding text into a fresh nonce match.) -/
theorem stripIrrelevantHtml_idempotent_of_no_residual_match :
    ∀ s : List Char,
      noPatMatch nonceMatchAt (stripIrrelevantHtml s) = true →
      noPatMatch viewstateMatchAt (stripIrrelevantHtml s) = true →
      stripIrrelevantHtml (stripIrrelevantHtml s) = stripIrrelevantHtml s := by
  intro s h1 h2
  show jsReplaceAll viewstateMatchAt
    (jsReplaceAll nonceMatchAt (stripIrrelevantHtml s)) = stripIrrelevantHtml s
  rw [jsReplaceAll_no_match nonceMatchAt _ h1,
    jsReplaceAll_no_match viewstateMatchAt _ h2]

theorem stripIrrelevantHtml_idempotent_witness :
    stripIrrelevantHtml (stripIrrelevantHtml
        ("<p><script nonce=\"x\">ok</script></p>").data) =
      stripIrrelevantHtml ("<p><script nonce=\"x\">ok</script></p>").data :=
  stripIrrelevantHtml_idempotent_of_no_residual_match
    ("<p><script nonce=\"x\">ok</script></p>").data (by decide) (by decide)

/-- C10 (counterexample): a `<script>` tag carrying two nonce attributes loses
only the second one per pass — the greedy `([^>]*)` group captures the first —
so a second normalisation pass changes the body again:
one pass gives `<script nonce="a">`, two passes give `<script>`. -/
theorem stripIrrelevantHtml_not_idempotent :
    stripIrrelevantHtml (stripIrrelevantHtml
        ("<script nonce=\"a\" nonce=\"b\">").data) ≠
      stripIrrelevantHtml ("<script nonce=\"a\" nonce=\"b\">").data := by
  decide


/-! ### C3: the similarity scorer -/

theorem matchesCount_eq_sum (a b : List Char) :
    matchesCount a b = ∑ c in b.toFinset, min (a.count c) (b.count c) := by
  have hdf : (b.dedup).toFinset = b.toFinset :=
    List.toFinset.ext (fun x => List.mem_dedup)
  rw [matchesCount, ← List.sum_toFinset _ b.nodup_dedup, hdf]

theorem matchesCount_eq_sum_union (a b : List Char) :
    matchesCount a b =
      ∑ c in a.toFinset ∪ b.toFinset, min (a.count c) (b.count c) := by
  rw [matchesCount_eq_sum]
  refine Finset.sum_subset Finset.subset_union_right ?_
  intro x _ hnb
  have hb : b.count x = 0 := by
    rw [List.count_eq_zero]
    intro hmem
    exact hnb (List.mem_toFinset.2 hmem)
  rw [hb, Nat.min_zero]

theorem matchesCount_comm (a b : List Char) :
    matchesCount a b = matchesCount b a := by
  rw [matchesCount_eq_sum_union, matchesCount_eq_sum_union b a,
    Finset.union_comm]
  exact Finset.sum_congr rfl (fun x _ => Nat.min_comm _ _)

theorem matchesCount_self (a : List Char) : matchesCount a a = a.length := by
  rw [matchesCount_eq_sum]
  simp only [Nat.min_self]
  exact List.sum_toFinset_count_eq_length a

theorem specMatches_eq_matchesCount (a b : List Char) :
    specMatches a b = matchesCount a b := by
  have hdf : ((a ++ b).dedup).toFinset = (a ++ b).toFinset :=
    List.toFinset.ext (fun x => List.mem_dedup)
  rw [specMatches, ← List.sum_toFinset _ (a ++ b).nodup_dedup, hdf,
    List.toFinset_append, ← matchesCount_eq_sum_union]

theorem utf16Width_pos (c : Char) : 1 ≤ utf16Width c := by
  unfold utf16Width
  split <;> norm_num

theorem jsStrLength_eq_zero_iff (a : List Char) :
    jsStrLength a = 0 ↔ a = [] := by
  cases a with
  | nil => simp [jsStrLength]
  | cons c t =>
    simp only [jsStrLength, List.map_cons, List.sum_cons]
    constructor
    · intro h
      have := utf16Width_pos c
      omega
    · intro h
      exact absurd h (List.cons_ne_nil c t)

theorem jsStrLength_eq_length (a : List Char)
    (h : ∀ c ∈ a, c.toNat < 65536) : jsStrLength a = a.length := by
  induction a with
  | nil => rfl
  | cons c t ih =>
    simp only [jsStrLength, List.map_cons, List.sum_cons, List.length_cons]
    rw [show utf16Width c = 1 from if_pos (h c (List.mem_cons_self c t))]
    have := ih (fun x hx => h x (List.mem_cons_of_mem c hx))
    rw [jsStrLength] at this
    omega

theorem jsStrLength_nil : jsStrLength ([] : List Char) = 0 := rfl

/-- C3 (amended): the scorer is symmetric and satisfies the special cases
unconditionally; it equals the reference quick-ratio (and in particular gives
100 on a non-empty string paired with itself) whenever the inputs contain only
basic-multilingual-plane code points — the code divides by JavaScript UTF-16
`.length` while counting frequencies per code point (`for...of`), so the two
definitions coincide exactly when every code point occupies one UTF-16 unit. -/
theorem quickRatio_spec_properties :
    (∀ a b : List Char,
      sequenceMatcherQuickRatio a b = sequenceMatcherQuickRatio b a)
    ∧ (sequenceMatcherQuickRatio [] [] = 1)
    ∧ (∀ a : List Char, a ≠ [] →
        sequenceMatcherQuickRatio [] a = 0 ∧
        sequenceMatcherQuickRatio a [] = 0)
    ∧ (∀ a : List Char, a ≠ [] → (∀ c ∈ a, c.toNat < 65536) →
        sequenceMatcherQuickRatio a a = 1)
    ∧ (∀ a b : List Char, (∀ c ∈ a, c.toNat < 65536) →
        (∀ c ∈ b, c.toNat < 65536) →
        100 * sequenceMatcherQuickRatio a b = specSimilarityScore a b) := by
  have hne0 : ∀ a : List Char, a ≠ [] → jsStrLength a ≠ 0 := fun a ha h0 =>
    ha ((jsStrLength_eq_zero_iff a).1 h0)
  refine ⟨?_, rfl, ?_, ?_, ?_⟩
  · intro a b
    unfold sequenceMatcherQuickRatio
    by_cases ha : jsStrLength a = 0 <;> by_cases hb : jsStrLength b = 0 <;>
      simp [ha, hb, matchesCount_comm a b, add_comm]
  · intro a ha
    have h := hne0 a ha
    constructor <;> simp [sequenceMatcherQuickRatio, jsStrLength_nil, h]
  · intro a ha hbmp
    have hlen := jsStrLength_eq_length a hbmp
    have hne : jsStrLength a ≠ 0 := hne0 a ha
    unfold sequenceMatcherQuickRatio
    rw [if_neg (fun h => hne h.1), if_neg (by rw [not_or]; exact ⟨hne, hne⟩),
      matchesCount_self, hlen]
    have hpos : 0 < (a.length : ℚ) := by
      exact_mod_cast List.length_pos.2 ha
    field_simp
    ring
  · intro a b hba hbb
    by_cases ha : a = [] <;> by_cases hb : b = []
    · subst ha; subst hb
      have h1 : sequenceMatcherQuickRatio [] [] = 1 := rfl
      have h2 : specSimilarityScore ([] : List Char) [] = 100 := rfl
      rw [h1, h2]
      norm_num
    · subst ha
      have h := hne0 b hb
      simp [sequenceMatcherQuickRatio, specSimilarityScore, jsStrLength_nil,
        h, hb]
    · subst hb
      have h := hne0 a ha
      simp [sequenceMatcherQuickRatio, specSimilarityScore, jsStrLength_nil,
        h, ha]
    · have hna := hne0 a ha
      have hnb := hne0 b hb
      have h4 := jsStrLength_eq_length a hba
      have h6 := jsStrLength_eq_length b hbb
      rw [sequenceMatcherQuickRatio.eq_def, specSimilarityScore.eq_def,
        specMatches_eq_matchesCount]
      rw [if_neg (fun h => hna h.1), if_neg (by rw [not_or]; exact ⟨hna, hnb⟩),
        if_neg (fun h => ha h.1), if_neg (by rw [not_or]; exact ⟨ha, hb⟩),
        h4, h6]

/-- C3 (counterexample): on the single-character astral string "\u{1D11E}"
(MUSICAL SYMBOL G CLEF, one code point, two UTF-16 units) the code computes
2·1/(2+2) = 50 %, not the 100 % required by `score(a,a) = 100` and by the
reference definition. -/
theorem quickRatio_astral_counterexample :
    100 * sequenceMatcherQuickRatio [Char.ofNat 119070] [Char.ofNat 119070] = 50
    ∧ specSimilarityScore [Char.ofNat 119070] [Char.ofNat 119070] = 100
    ∧ (50 : ℚ) ≠ 100 := by
  have h1 : jsStrLength [Char.ofNat 119070] = 2 := by decide
  have h2 : matchesCount [Char.ofNat 119070] [Char.ofNat 119070] = 1 := by
    decide
  have h3 : specMatches [Char.ofNat 119070] [Char.ofNat 119070] = 1 := by
    decide
  refine ⟨?_, ?_, by norm_num⟩
  · rw [sequenceMatcherQuickRatio.eq_def, h1, h2]
    norm_num
  · rw [specSimilarityScore.eq_def, h3]
    norm_num

/-- Witness inputs for the scorer properties. -/
theorem quickRatio_properties_witness :
    (sequenceMatcherQuickRatio "ab".data "ba".data =
      sequenceMatcherQuickRatio "ba".data "ab".data)
    ∧ (sequenceMatcherQuickRatio [] "ab".data = 0 ∧
        sequenceMatcherQuickRatio "ab".data [] = 0)
    ∧ (sequenceMatcherQuickRatio "ab".data "ab".data = 1)
    ∧ (100 * sequenceMatcherQuickRatio "ab".data "cb".data =
        specSimilarityScore "ab".data "cb".data) :=
  ⟨quickRatio_spec_properties.1 "ab".data "ba".data,
    quickRatio_spec_properties.2.2.1 "ab".data (by decide),
    quickRatio_spec_properties.2.2.2.1 "ab".data (by decide) (by decide),
    quickRatio_spec_properties.2.2.2.2 "ab".data "cb".data (by decide)
      (by decide)⟩


/-! ### C4: the similarity threshold -/

/-- C4 (amended): in every verdict produced when both fetches succeed,
`contentComparison.pass` is true exactly when `100 − 100·ratio ≤ 10` for the
UNROUNDED similarity ratio of the normalised, size-capped bodies, while the
reported `similarityPercent` is `round(1000·ratio)/10`, i.e. that ratio
rounded to one decimal place.  Because `pass` uses the unrounded ratio, it can
disagree with `(100 − similarityPercent) ≤ 10` when the rounding crosses the
threshold (see the counterexample). -/

theorem contentComparison_pass_unrounded (env : Env) (url : String)
    (frParam : Option String) (parsed : URLRec) (a4 a6 : String)
    (resp4 resp6 : FetchOk) (hurl : url ≠ "")
    (hp : env.parseURL
      (if jsStartsWith url "http" then url else "https://" ++ url) = .ok parsed)
    (h4 : env.dns parsed.hostname RecType.A = some a4)
    (h6 : env.dns parsed.hostname RecType.AAAA = some a6)
    (hr4 : fetchViaIP env a4 parsed.hostname (frParam == some "true") = .ok resp4)
    (hr6 : fetchViaIP env a6 parsed.hostname (frParam == some "true") = .ok resp6) :
    ∃ r, GET env (some url) frParam = .json r ∧
      (r.contentComparison.pass = true ↔
        100 - sequenceMatcherQuickRatio
          (stripIrrelevantHtml (jsTakeUnits SIMHASH_MAX_RESPONSE_SIZE resp4.body))
          (stripIrrelevantHtml (jsTakeUnits SIMHASH_MAX_RESPONSE_SIZE resp6.body))
            * 100 ≤ 10) ∧
      r.contentComparison.similarityPercent =
        some ((jsRound (sequenceMatcherQuickRatio
          (stripIrrelevantHtml (jsTakeUnits SIMHASH_MAX_RESPONSE_SIZE resp4.body))
          (stripIrrelevantHtml (jsTakeUnits SIMHASH_MAX_RESPONSE_SIZE resp6.body))
            * 1000) : ℚ) / 10) := by
  rw [GET_some_ok env url frParam parsed hurl hp,
    getAfterParse_both env url _ parsed.hostname a4 a6 h4 h6,
    proceedStage_ok env url _ parsed.hostname a4 a6 resp4 resp6 hr4 hr6]
  refine ⟨_, rfl, ?_, rfl⟩
  simp only [scoredResult, SIMHASH_MAX_DISTANCE, decide_eq_true_eq]

def c4Body4 : List Char := List.replicate 94 'x'

def c4Body6 : List Char := List.replicate 94 'x' ++ List.replicate 21 'y'

def wEnvRound : Env where
  dns := fun h t =>
    if h = "c.test" then
      match t with
      | RecType.A => some "192.0.2.4"
      | RecType.AAAA => some "2001:db8::4"
    else none
  port := fun _ _ => true
  http := fun i _ _ =>
    .ok { status := 200, headers := [],
          body := if i = "192.0.2.4" then c4Body4 else c4Body6 }
  parseURL := fun s =>
    if s = "https://c.test" then .ok ⟨"c.test", "/", ""⟩
    else .error "invalid URL"

set_option maxRecDepth 40000 in
/-- C4 (counterexample): with bodies `x^94` and `x^94 y^21` the ratio is
188/209 ≈ 0.89952: the verdict reports `similarityPercent = 90`, so
`100 − similarityPercent ≤ 10` holds, yet `pass` is false because the
unrounded distance `100 − 100·188/209 ≈ 10.05` exceeds 10 — refuting the
claimed equivalence with the rounded percentage. -/
theorem similarityPercent_rounding_counterexample :
    (verdictOf (GET wEnvRound (some "c.test") none)).error = none ∧
    (verdictOf (GET wEnvRound (some "c.test") none)).headerComparison.ipv4StatusCode
      = some 200 ∧
    (verdictOf (GET wEnvRound (some "c.test") none)).headerComparison.ipv6StatusCode
      = some 200 ∧
    (verdictOf (GET wEnvRound (some "c.test") none)).contentComparison.similarityPercent
      = some 90 ∧
    (verdictOf (GET wEnvRound (some "c.test") none)).contentComparison.pass
      = false ∧
    (100 : ℚ) - 90 ≤ 10 := by
  have hr4 : fetchViaIP wEnvRound "192.0.2.4" "c.test"
      ((none : Option String) == some "true") =
      .ok ⟨200, [], c4Body4, []⟩ := by rfl
  have hr6 : fetchViaIP wEnvRound "2001:db8::4" "c.test"
      ((none : Option String) == some "true") =
      .ok ⟨200, [], c4Body6, []⟩ := by rfl
  rw [GET_some_ok wEnvRound "c.test" none ⟨"c.test", "/", ""⟩ (by decide) rfl,
    getAfterParse_both wEnvRound "c.test" _ "c.test" "192.0.2.4" "2001:db8::4"
      rfl rfl,
    proceedStage_ok wEnvRound "c.test" _ "c.test" "192.0.2.4" "2001:db8::4"
      ⟨200, [], c4Body4, []⟩ ⟨200, [], c4Body6, []⟩ hr4 hr6]
  have hstrip4 : stripIrrelevantHtml
      (jsTakeUnits SIMHASH_MAX_RESPONSE_SIZE c4Body4) = c4Body4 := by decide
  have hstrip6 : stripIrrelevantHtml
      (jsTakeUnits SIMHASH_MAX_RESPONSE_SIZE c4Body6) = c4Body6 := by decide
  have hratio : sequenceMatcherQuickRatio c4Body4 c4Body6 = 188 / 209 := by
    have h1 : jsStrLength c4Body4 = 94 := by decide
    have h2 : jsStrLength c4Body6 = 115 := by decide
    have h3 : matchesCount c4Body4 c4Body6 = 94 := by decide
    rw [sequenceMatcherQuickRatio.eq_def, h1, h2, h3]
    norm_num
  have hfloor : jsRound ((188 : ℚ) / 209 * 1000) = 900 := by
    rw [jsRound, Int.floor_eq_iff]
    norm_num
  have hpass : (decide ((100 : ℚ) - 188 / 209 * 100 ≤ SIMHASH_MAX_DISTANCE))
      = false := by
    rw [decide_eq_false_iff_not]
    simp only [SIMHASH_MAX_DISTANCE]
    norm_num
  refine ⟨rfl, rfl, rfl, ?_, ?_, by norm_num⟩
  · show (scoredResult _ _ _ _ _ _ _).contentComparison.similarityPercent = _
    simp only [scoredResult]
    rw [hstrip4, hstrip6, hratio, hfloor]
    norm_num
  · show (scoredResult _ _ _ _ _ _ _).contentComparison.pass = false
    simp only [scoredResult]
    rw [hstrip4, hstrip6, hratio]
    exact hpass

theorem contentComparison_pass_unrounded_witness :
    ∃ r, GET wEnvOk (some "h.test") none = .json r ∧
      (r.contentComparison.pass = true ↔
        100 - sequenceMatcherQuickRatio
          (stripIrrelevantHtml (jsTakeUnits SIMHASH_MAX_RESPONSE_SIZE "ok".data))
          (stripIrrelevantHtml (jsTakeUnits SIMHASH_MAX_RESPONSE_SIZE "ok".data))
            * 100 ≤ 10) ∧
      r.contentComparison.similarityPercent =
        some ((jsRound (sequenceMatcherQuickRatio
          (stripIrrelevantHtml (jsTakeUnits SIMHASH_MAX_RESPONSE_SIZE "ok".data))
          (stripIrrelevantHtml (jsTakeUnits SIMHASH_MAX_RESPONSE_SIZE "ok".data))
            * 1000) : ℚ) / 10) :=
  contentComparison_pass_unrounded wEnvOk "h.test" none ⟨"h.test", "/", ""⟩
    "192.0.2.1" "2001:db8::1"
    { status := 200, headers := [("server", "x")], body := "ok".data,
      redirectChain := [] }
    { status := 200, headers := [("server", "x")], body := "ok".data,
      redirectChain := [] }
    (by decide) rfl rfl rfl rfl rfl
